import Mathlib

/-!
Verification of `tools/nova_bridge.py` (NeuroNudge Nova ACT local bridge).

The module is a FastAPI shim with two endpoints, `/break-ritual` and
`/reentry`.  Each endpoint validates a pydantic request model, composes a
natural-language prompt, and dispatches it to the Nova ACT SDK when the SDK
and the `NOVA_ACT_API_KEY` environment variable are both present, falling
back to a simulated delay otherwise.

The embedding below is a direct translation of the source:
  * pydantic field constraints become explicit `validate` functions;
  * `os.getenv` / availability of the SDK become an explicit `Env` record;
  * Python `str.strip` / `str.replace` become `List Char` operations
    (`stripL`, `replaceNL`) under the ASCII whitespace set that Python's
    `str.strip()` uses;
  * the `textwrap.dedent`-ed f-string templates are modelled as the list of
    their lines (after dedent and the outer `.strip()`), joined by `"\n"`;
  * the external SDK call (`NovaAct(**kwargs)` / `nova.act(prompt)`) is a
    parameter `act`; recorded invocations, logged warnings and the
    raised-or-not outcome are returned explicitly.
-/

namespace NovaBridge

/-- Whitespace characters recognised by Python's `str.strip()` (ASCII part):
space, tab, newline, carriage return, vertical tab, form feed. -/
def pyWS (c : Char) : Bool :=
  c == ' ' || c == '\t' || c == '\n' || c == '\r' || c == '\x0b' || c == '\x0c'

/-- Drop leading whitespace, as in Python's `str.lstrip()`. -/
def lstripL (l : List Char) : List Char := l.dropWhile pyWS

/-- Drop trailing whitespace, as in Python's `str.rstrip()`. -/
def rstripL (l : List Char) : List Char := (l.reverse.dropWhile pyWS).reverse

/-- Python's `str.strip()`: drop leading and trailing whitespace. -/
def stripL (l : List Char) : List Char := rstripL (lstripL l)

/-- Python's `str.strip()` lifted to `String`. -/
def pyStrip (s : String) : String := String.mk (stripL s.data)

/-- Python's `str.replace("\n", " ")`: a single-character replacement is a map. -/
def replaceNL (l : List Char) : List Char :=
  l.map (fun c => if c = '\n' then ' ' else c)

/-- Source `BreakRitualRequest` (pydantic model):
`seconds: int (ge=30, le=900) = 90`, `kind: str (max_length=64) = "breathing"`,
`mute_slack: bool = True`. -/
structure BreakRitualRequest where
  seconds : Int
  kind : String
  mute_slack : Bool
deriving DecidableEq

/-- Pydantic constructor-time validation of `BreakRitualRequest`:
`seconds` must satisfy `ge=30, le=900`, `kind` must satisfy `max_length=64`. -/
def BreakRitualRequest.validate (seconds : Int) (kind : String) (mute_slack : Bool) :
    Option BreakRitualRequest :=
  if 30 ≤ seconds ∧ seconds ≤ 900 ∧ kind.length ≤ 64 then
    some ⟨seconds, kind, mute_slack⟩
  else
    none

/-- Source `ReentryRequest` (pydantic model):
`url: str (min_length=1, max_length=2048)`, `note: str = ""`,
`selector_hint: str = "textarea, [contenteditable=true]"`. -/
structure ReentryRequest where
  url : String
  note : String
  selector_hint : String
deriving DecidableEq

/-- Pydantic constructor-time validation of `ReentryRequest`:
`url` must satisfy `min_length=1, max_length=2048`. -/
def ReentryRequest.validate (url note selector_hint : String) : Option ReentryRequest :=
  if 1 ≤ url.length ∧ url.length ≤ 2048 then
    some ⟨url, note, selector_hint⟩
  else
    none

/-- Process environment as seen by `_nova_available`: whether the
`nova_act` import succeeded (`NovaAct is not None`) and the value of
`os.getenv("NOVA_ACT_API_KEY")` (`none` when unset). -/
structure Env where
  sdkPresent : Bool
  apiKey : Option String
deriving DecidableEq

/-- Source `_nova_available`: `False` when `NovaAct is None`, `False` when
`not os.getenv("NOVA_ACT_API_KEY")` (i.e. the variable is unset or empty,
both falsy in Python), `True` otherwise. -/
def novaAvailable (e : Env) : Bool :=
  e.sdkPresent && !(e.apiKey.getD "" == "")

/-- Source `_format_seconds`.  Python `//` and `%` are floor division and
the matching modulus, i.e. `Int.fdiv` and `Int.fmod`; `if minutes and
remaining:` tests integer truthiness, i.e. both non-zero. -/
def formatSeconds (seconds : Int) : String :=
  let minutes := Int.fdiv seconds 60
  let remaining := Int.fmod seconds 60
  if minutes ≠ 0 ∧ remaining ≠ 0 then
    toString minutes ++ "m " ++ toString remaining ++ "s"
  else if minutes ≠ 0 then
    toString minutes ++ " minute" ++ (if minutes ≠ 1 then "s" else "")
  else
    toString seconds ++ " second" ++ (if seconds ≠ 1 then "s" else "")

/-- Source `_strip_note`: `note = note.strip()`; if the result is falsy
(empty) return `""`; otherwise `note.replace("\n", " ").strip()`. -/
def stripNote (note : String) : String :=
  if pyStrip note = "" then "" else String.mk (stripL (replaceNL (pyStrip note).data))

/-- The `duration` query parameter embedded in the break prompt:
source expression `max(30, min(payload.seconds, 300))`. -/
def breakEmbeddedDuration (seconds : Int) : Int := max 30 (min seconds 300)

/-- The line appended to the break prompt when `mute_slack` is true. -/
def slackLine : String :=
  "If Slack is open in another tab, pause Slack notifications for the next hour before starting the timer."

/-- Line 2 of the break prompt template, with the clamped duration embedded. -/
def breakUrlLine (p : BreakRitualRequest) : String :=
  "1. Open a new tab and navigate to https://box-breathing.com/?duration=" ++
    toString (breakEmbeddedDuration p.seconds) ++ "."

/-- Line 5 of the break prompt template, with the human-readable duration. -/
def breakReplyLine (p : BreakRitualRequest) : String :=
  "4. Reply in chat with: \"Break timer started for " ++ formatSeconds p.seconds ++ ".\""

/-- Source `_describe_break_prompt`, as the list of lines of the
`dedent(...).strip()`-ed template, with the conditional `mute_slack`
line appended exactly as `prompt += "\n..."` does. -/
def describeBreakLines (p : BreakRitualRequest) : List String :=
  ["You are a focus coach helping a writer in Google Docs take a short reset.",
   breakUrlLine p,
   "2. Start the guided breathing session immediately and let it run in the foreground.",
   "3. If a confirmation appears, acknowledge it.",
   breakReplyLine p,
   "Keep the session active until the timer completes. Do not close the tab or switch away."]
  ++ (if p.mute_slack then [slackLine] else [])

/-- Join lines with `"\n"`, as the f-string templates and the `+= "\n..."`
concatenations do. -/
def joinLines : List String → String
  | [] => ""
  | [l] => l
  | l :: rest => l ++ "\n" ++ joinLines rest

/-- Source `_describe_break_prompt` as the final prompt string. -/
def describeBreakPrompt (p : BreakRitualRequest) : String :=
  joinLines (describeBreakLines p)

/-- Header line of the re-entry prompt template. -/
def reentryHeader : String := "Help the user resume work after their break."

/-- Step 1 of the re-entry prompt: `f"1. Navigate to {payload.url}."`. -/
def reentryStep1 (p : ReentryRequest) : String := "1. Navigate to " ++ p.url ++ "."

/-- Step 2 of the re-entry prompt. -/
def reentryStep2 : String := "2. Wait for the page to finish loading."

/-- Step 3 of the re-entry prompt, embedding the selector hint. -/
def reentryStep3 (p : ReentryRequest) : String :=
  "3. Focus the best matching element for the CSS selector \"" ++ p.selector_hint ++ "\"."

/-- Step 4 of the re-entry prompt. -/
def reentryStep4 : String :=
  "4. Place the text caret at the end of the existing content without submitting the document."

/-- Step 5 of the re-entry prompt, embedding the sanitized note; only added
when the sanitized note is non-empty. -/
def reentryStep5 (p : ReentryRequest) : String :=
  "5. Insert this note verbatim so the user remembers their next step: \"" ++
    stripNote p.note ++ "\"."

/-- Step 6 of the re-entry prompt, appended unconditionally. -/
def reentryStep6 : String := "6. Reply in chat with: \"Ready to resume.\""

/-- Source `_describe_reentry_prompt` as the list of lines: the dedented,
stripped 5-line template, then `if safe_note: base += "\n5. ..."`, then
`base += "\n6. ..."`. -/
def describeReentryLines (p : ReentryRequest) : List String :=
  [reentryHeader, reentryStep1 p, reentryStep2, reentryStep3 p, reentryStep4]
  ++ (if stripNote p.note = "" then [] else [reentryStep5 p]) ++ [reentryStep6]

/-- Source `_describe_reentry_prompt` as the final prompt string. -/
def describeReentryPrompt (p : ReentryRequest) : String :=
  joinLines (describeReentryLines p)

/-- A recorded call to the external SDK: the prompt handed to `nova.act`
and the `starting_page` keyword argument given to `NovaAct(**kwargs)`
(`none` when `kwargs` is empty). -/
structure Invocation where
  prompt : String
  startingPage : Option String
deriving DecidableEq

/-- Source `kwargs = {"starting_page": starting_page} if starting_page else {}`:
the keyword is passed only when `starting_page` is truthy, i.e. neither
`None` nor the empty string. -/
def normalizePage (sp : Option String) : Option String :=
  match sp with
  | some s => if s = "" then none else some s
  | none => none

/-- Outcome of `_invoke_nova`: the recorded SDK invocations, the
`logger.warning` messages emitted, and whether an exception propagated. -/
structure NovaOutcome where
  invocations : List Invocation
  warnings : List String
  result : Except String Unit

/-- Source `_invoke_nova`.  When `_nova_available()` is false it logs and
returns without touching the SDK.  Otherwise it runs the SDK call `act`
(modelling `with NovaAct(**kwargs) as nova: nova.act(prompt)`); on an
exception it logs `"Nova ACT invocation failed: %s"` and re-raises. -/
def invokeNova (env : Env) (act : String → Option String → Except String Unit)
    (prompt : String) (startingPage : Option String) : NovaOutcome :=
  if novaAvailable env then
    match act prompt (normalizePage startingPage) with
    | Except.ok _ => ⟨[⟨prompt, normalizePage startingPage⟩], [], Except.ok ()⟩
    | Except.error e =>
        ⟨[⟨prompt, normalizePage startingPage⟩],
         ["Nova ACT invocation failed: " ++ e], Except.error e⟩
  else
    ⟨[], [], Except.ok ()⟩

/-- The JSON envelope returned by both endpoints on success. -/
structure Response where
  status : String
  nova : Bool
  skipped : Option String
deriving DecidableEq

/-- How a request can fail: an explicit `HTTPException` (status code and
detail), or an unhandled exception from the dispatch (FastAPI turns it
into a server-side failure). -/
inductive Failure where
  | http (statusCode : Nat) (detail : String)
  | backend (msg : String)
deriving DecidableEq

/-- Full observable outcome of one endpoint call: the response or failure,
the recorded SDK invocations, and the warnings logged. -/
structure EndpointResult where
  response : Except Failure Response
  invocations : List Invocation
  warnings : List String

/-- Source `trigger_break_ritual`: if `_nova_available()`, compose the break
prompt, dispatch with `starting_page="https://docs.google.com/"`, and
return `{"status": "ok", "nova": True}`; otherwise sleep (not modelled:
pure timing) and return the skipped envelope. -/
def triggerBreakRitual (env : Env) (act : String → Option String → Except String Unit)
    (p : BreakRitualRequest) : EndpointResult :=
  if novaAvailable env then
    let o := invokeNova env act (describeBreakPrompt p) (some "https://docs.google.com/")
    match o.result with
    | Except.ok _ => ⟨Except.ok ⟨"ok", true, none⟩, o.invocations, o.warnings⟩
    | Except.error e => ⟨Except.error (Failure.backend e), o.invocations, o.warnings⟩
  else
    ⟨Except.ok ⟨"ok", false, some "nova_unavailable"⟩, [], []⟩

/-- Source `trigger_reentry`: `if not payload.url: raise HTTPException(400,
"Missing url.")` (only the empty string is falsy); then as for the break
ritual, with the re-entry prompt and `starting_page=payload.url`. -/
def triggerReentry (env : Env) (act : String → Option String → Except String Unit)
    (p : ReentryRequest) : EndpointResult :=
  if p.url = "" then
    ⟨Except.error (Failure.http 400 "Missing url."), [], []⟩
  else if novaAvailable env then
    let o := invokeNova env act (describeReentryPrompt p) (some p.url)
    match o.result with
    | Except.ok _ => ⟨Except.ok ⟨"ok", true, none⟩, o.invocations, o.warnings⟩
    | Except.error e => ⟨Except.error (Failure.backend e), o.invocations, o.warnings⟩
  else
    ⟨Except.ok ⟨"ok", false, some "nova_unavailable"⟩, [], []⟩

/-! ## Helper lemmas on strings and lists -/

theorem strExt {a b : String} (h : a.data = b.data) : a = b :=
  congrArg String.mk h

theorem strData_append (a b : String) : (a ++ b).data = a.data ++ b.data := rfl

theorem strAppend_empty (s : String) : s ++ "" = s :=
  strExt (List.append_nil s.data)

theorem strAppend_assoc (a b c : String) : a ++ b ++ c = a ++ (b ++ c) :=
  strExt (List.append_assoc a.data b.data c.data)

theorem data_mk (l : List Char) : (String.mk l).data = l := rfl

/-- The first character of a string, used to tell the prompt lines apart. -/
def headChar (s : String) : Option Char := s.data.head?

theorem headChar_ne {a b : String} {c d : Char} (ha : headChar a = some c)
    (hb : headChar b = some d) (hcd : c ≠ d) : a ≠ b := by
  intro e
  rw [e, hb] at ha
  injection ha with h
  exact hcd h.symm

theorem dropWhile_eq_self_of_head {α : Type} (p : α → Bool) (l : List α)
    (h : ∀ c, l.head? = some c → p c = false) : l.dropWhile p = l := by
  cases l with
  | nil => rfl
  | cons c t => exact List.dropWhile_cons_of_neg (by simp [h c rfl])

theorem head_false_of_dropWhile_eq_self {α : Type} (p : α → Bool) (l : List α)
    (h : l.dropWhile p = l) : ∀ c, l.head? = some c → p c = false := by
  intro c hc
  cases l with
  | nil => simp at hc
  | cons a t =>
    simp only [List.head?_cons, Option.some.injEq] at hc
    rw [← hc]
    by_cases hp : p a
    · rw [List.dropWhile_cons_of_pos hp] at h
      have hl := (List.dropWhile_sublist p : List.Sublist (t.dropWhile p) t).length_le
      rw [h] at hl
      simp at hl
    · simpa using hp

theorem head_dropWhile_false {α : Type} (p : α → Bool) (l : List α) :
    ∀ c, (l.dropWhile p).head? = some c → p c = false := by
  intro c hc
  have h := List.head?_dropWhile_not p l
  rw [hc] at h
  exact h

theorem dropWhile_dropWhile {α : Type} (p : α → Bool) (l : List α) :
    (l.dropWhile p).dropWhile p = l.dropWhile p :=
  dropWhile_eq_self_of_head p _ (head_dropWhile_false p l)

theorem dropWhile_concat_neg {α : Type} (p : α → Bool) (t : List α) (c : α)
    (hc : p c = false) : (t ++ [c]).dropWhile p = t.dropWhile p ++ [c] := by
  induction t with
  | nil => simp [List.dropWhile_cons, hc]
  | cons a t ih =>
    by_cases h : p a
    · simp [List.dropWhile_cons, h, ih]
    · simp [List.dropWhile_cons, h]

theorem rstripL_cons_neg (c : Char) (t : List Char) (hc : pyWS c = false) :
    rstripL (c :: t) = c :: rstripL t := by
  unfold rstripL
  rw [List.reverse_cons, dropWhile_concat_neg pyWS _ c hc, List.reverse_append]
  rfl

theorem rstripL_rstripL (l : List Char) : rstripL (rstripL l) = rstripL l := by
  unfold rstripL
  rw [List.reverse_reverse, dropWhile_dropWhile]

theorem lstripL_rstripL_lstripL (l : List Char) :
    lstripL (rstripL (lstripL l)) = rstripL (lstripL l) := by
  unfold lstripL
  rcases h : l.dropWhile pyWS with _ | ⟨c, t⟩
  · rfl
  · have hc : pyWS c = false := head_dropWhile_false pyWS l c (by rw [h]; rfl)
    rw [rstripL_cons_neg c t hc]
    exact List.dropWhile_cons_of_neg (by simp [hc])

theorem lstripL_stripL (l : List Char) : lstripL (stripL l) = stripL l :=
  lstripL_rstripL_lstripL l

theorem rstripL_stripL (l : List Char) : rstripL (stripL l) = stripL l :=
  rstripL_rstripL _

theorem pyWS_newline : pyWS '\n' = true := rfl

theorem replaceChar_of_not_ws (c : Char) (h : pyWS c = false) :
    (if c = '\n' then ' ' else c) = c := by
  have hne : c ≠ '\n' := by
    intro e
    rw [e, pyWS_newline] at h
    exact Bool.noConfusion h
  simp [hne]

theorem dropWhile_replaceNL_eq_self (y : List Char) (h : y.dropWhile pyWS = y) :
    (replaceNL y).dropWhile pyWS = replaceNL y := by
  apply dropWhile_eq_self_of_head
  intro c hc
  rw [replaceNL, List.head?_map] at hc
  rcases hy0 : y.head? with _ | c0
  · rw [hy0] at hc
    simp at hc
  · rw [hy0] at hc
    injection hc with hc
    have hc0 : pyWS c0 = false := head_false_of_dropWhile_eq_self pyWS y h c0 hy0
    rw [← hc]
    show pyWS (if c0 = '\n' then ' ' else c0) = false
    rw [replaceChar_of_not_ws c0 hc0]
    exact hc0

theorem reverse_replaceNL (y : List Char) :
    (replaceNL y).reverse = replaceNL y.reverse := by
  unfold replaceNL
  exact (List.map_reverse _ _).symm

theorem stripL_replaceNL_stripL (z : List Char) :
    stripL (replaceNL (stripL z)) = replaceNL (stripL z) := by
  have h1 : (stripL z).dropWhile pyWS = stripL z := lstripL_stripL z
  have h2 : (stripL z).reverse.dropWhile pyWS = (stripL z).reverse := by
    have h3 := congrArg List.reverse (rstripL_stripL z)
    rw [show rstripL (stripL z) = ((stripL z).reverse.dropWhile pyWS).reverse from rfl,
      List.reverse_reverse] at h3
    exact h3
  have hg1 : lstripL (replaceNL (stripL z)) = replaceNL (stripL z) :=
    dropWhile_replaceNL_eq_self _ h1
  have hg2 : rstripL (replaceNL (stripL z)) = replaceNL (stripL z) := by
    show ((replaceNL (stripL z)).reverse.dropWhile pyWS).reverse = replaceNL (stripL z)
    rw [reverse_replaceNL, dropWhile_replaceNL_eq_self _ h2, ← reverse_replaceNL,
      List.reverse_reverse]
  show rstripL (lstripL (replaceNL (stripL z))) = replaceNL (stripL z)
  rw [hg1, hg2]

theorem replaceNL_replaceNL (l : List Char) : replaceNL (replaceNL l) = replaceNL l := by
  unfold replaceNL
  rw [List.map_map]
  apply List.map_congr_left
  intro c _
  by_cases h : c = '\n'
  · simp [h]
  · simp [h]

/-- The sanitization described by the specification, in its own words:
first trim surrounding whitespace, then collapse every newline into a
single space. -/
def stripNoteSpec (note : String) : String :=
  String.mk (replaceNL (stripL note.data))

theorem stripNote_eq_spec (note : String) : stripNote note = stripNoteSpec note := by
  unfold stripNote stripNoteSpec pyStrip
  by_cases h : String.mk (stripL note.data) = ""
  · rw [if_pos h]
    have hl : stripL note.data = [] := congrArg String.data h
    rw [hl]
    rfl
  · rw [if_neg h, data_mk, stripL_replaceNL_stripL]

theorem stripNote_idem (note : String) : stripNote (stripNote note) = stripNote note := by
  rw [stripNote_eq_spec (stripNote note), stripNote_eq_spec note]
  unfold stripNoteSpec
  rw [data_mk, stripL_replaceNL_stripL, replaceNL_replaceNL]

theorem stripNote_allWS (note : String) (h : note.data.all pyWS = true) :
    stripNote note = "" := by
  have hl : lstripL note.data = [] := by
    unfold lstripL
    rw [List.dropWhile_eq_nil_iff]
    intro a ha
    exact List.all_eq_true.mp h a ha
  have hs : stripL note.data = [] := by
    unfold stripL
    rw [hl]
    rfl
  have hp : pyStrip note = "" := by
    unfold pyStrip
    rw [hs]
  unfold stripNote
  simp [hp]

/-! ## Lemmas about the prompt composers -/

theorem joinLines_cons₂ (a b : String) (t : List String) :
    joinLines (a :: b :: t) = a ++ "\n" ++ joinLines (b :: t) := rfl

theorem joinLines_concat (ls : List String) (x : String) (hne : ls ≠ []) :
    joinLines (ls ++ [x]) = joinLines ls ++ "\n" ++ x := by
  induction ls with
  | nil => exact absurd rfl hne
  | cons a t ih =>
    cases t with
    | nil => rfl
    | cons b t2 =>
      rw [show (a :: b :: t2) ++ [x] = a :: ((b :: t2) ++ [x]) from rfl,
        show (b :: t2) ++ [x] = b :: (t2 ++ [x]) from rfl, joinLines_cons₂,
        show b :: (t2 ++ [x]) = (b :: t2) ++ [x] from rfl, ih (by simp), joinLines_cons₂]
      apply strExt
      simp [strData_append, List.append_assoc]

/-- The claim's own description of `_format_seconds`: with `minutes` the
floor quotient by 60 and `remainder` the matching modulus, render
`"<minutes>m <remainder>s"` when both are non-zero, `"<minutes> minute"`
for exactly one minute and `"<minutes> minutes"` otherwise when only
`minutes` is non-zero, and `"<seconds> second(s)"` with the same
pluralization otherwise. -/
def formatSecondsClaim (s : Int) : String :=
  let minutes := Int.fdiv s 60
  let remainder := Int.fmod s 60
  if minutes ≠ 0 ∧ remainder ≠ 0 then
    toString minutes ++ "m " ++ toString remainder ++ "s"
  else if minutes ≠ 0 then
    (if minutes = 1 then toString minutes ++ " minute" else toString minutes ++ " minutes")
  else
    (if s = 1 then toString s ++ " second" else toString s ++ " seconds")

theorem formatSeconds_eq_claim (s : Int) : formatSeconds s = formatSecondsClaim s := by
  simp only [formatSeconds, formatSecondsClaim]
  by_cases h1 : Int.fdiv s 60 ≠ 0 ∧ Int.fmod s 60 ≠ 0
  · rw [if_pos h1, if_pos h1]
  · rw [if_neg h1, if_neg h1]
    by_cases h2 : Int.fdiv s 60 ≠ 0
    · rw [if_pos h2, if_pos h2]
      by_cases h3 : Int.fdiv s 60 = 1
      · rw [if_pos h3, if_neg (not_not_intro h3)]
        exact strAppend_empty _
      · rw [if_pos h3, if_neg h3]
        rw [strAppend_assoc]
        rfl
    · rw [if_neg h2, if_neg h2]
      by_cases h4 : s = 1
      · rw [if_pos h4, if_neg (not_not_intro h4)]
        exact strAppend_empty _
      · rw [if_pos h4, if_neg h4]
        rw [strAppend_assoc]
        rfl

theorem headChar_reentryHeader : headChar reentryHeader = some 'H' := rfl

theorem headChar_reentryStep1 (p : ReentryRequest) :
    headChar (reentryStep1 p) = some '1' := rfl

theorem headChar_reentryStep2 : headChar reentryStep2 = some '2' := rfl

theorem headChar_reentryStep3 (p : ReentryRequest) :
    headChar (reentryStep3 p) = some '3' := rfl

theorem headChar_reentryStep4 : headChar reentryStep4 = some '4' := rfl

theorem headChar_reentryStep5 (p : ReentryRequest) :
    headChar (reentryStep5 p) = some '5' := rfl

theorem headChar_reentryStep6 : headChar reentryStep6 = some '6' := rfl

theorem describeReentryLines_of_empty (p : ReentryRequest) (h : stripNote p.note = "") :
    describeReentryLines p =
      [reentryHeader, reentryStep1 p, reentryStep2, reentryStep3 p, reentryStep4,
       reentryStep6] := by
  unfold describeReentryLines
  rw [if_pos h]
  rfl

theorem describeReentryLines_of_nonempty (p : ReentryRequest)
    (h : ¬stripNote p.note = "") :
    describeReentryLines p =
      [reentryHeader, reentryStep1 p, reentryStep2, reentryStep3 p, reentryStep4,
       reentryStep5 p, reentryStep6] := by
  unfold describeReentryLines
  rw [if_neg h]
  rfl

theorem step5_notMem_base (p : ReentryRequest) (l : String)
    (hl : l ∈ [reentryHeader, reentryStep1 p, reentryStep2, reentryStep3 p, reentryStep4,
      reentryStep6]) :
    headChar l ≠ some '5' := by
  simp only [List.mem_cons, List.not_mem_nil, or_false] at hl
  rcases hl with rfl | rfl | rfl | rfl | rfl | rfl
  · rw [headChar_reentryHeader]
    decide
  · rw [headChar_reentryStep1]
    decide
  · rw [headChar_reentryStep2]
    decide
  · rw [headChar_reentryStep3]
    decide
  · rw [headChar_reentryStep4]
    decide
  · rw [headChar_reentryStep6]
    decide

theorem step5_mem_iff (p : ReentryRequest) :
    reentryStep5 p ∈ describeReentryLines p ↔ stripNote p.note ≠ "" := by
  by_cases h : stripNote p.note = ""
  · rw [describeReentryLines_of_empty p h]
    constructor
    · intro hm
      exact absurd (headChar_reentryStep5 p) (step5_notMem_base p _ hm)
    · intro hne
      exact absurd h hne
  · rw [describeReentryLines_of_nonempty p h]
    constructor
    · intro _
      exact h
    · intro _
      simp

theorem reentry_getLast (p : ReentryRequest) :
    (describeReentryLines p).getLast? = some reentryStep6 := by
  unfold describeReentryLines
  exact List.getLast?_concat _

/-! ## Lemmas about the dispatcher -/

theorem normalizePage_of_ne (s : String) (hs : ¬s = "") :
    normalizePage (some s) = some s := by
  simp [normalizePage, hs]

theorem invokeNova_ok (env : Env) (act : String → Option String → Except String Unit)
    (prompt : String) (sp : Option String) (h : novaAvailable env = true)
    (hact : act prompt (normalizePage sp) = Except.ok ()) :
    invokeNova env act prompt sp = ⟨[⟨prompt, normalizePage sp⟩], [], Except.ok ()⟩ := by
  simp [invokeNova, h, hact]

theorem invokeNova_err (env : Env) (act : String → Option String → Except String Unit)
    (prompt : String) (sp : Option String) (e : String) (h : novaAvailable env = true)
    (hact : act prompt (normalizePage sp) = Except.error e) :
    invokeNova env act prompt sp =
      ⟨[⟨prompt, normalizePage sp⟩], ["Nova ACT invocation failed: " ++ e],
       Except.error e⟩ := by
  simp [invokeNova, h, hact]

/-! ## Claim theorems -/

/-- C1: for every request to either endpoint, when the automation capability
is unavailable (the SDK binding is absent, or `NOVA_ACT_API_KEY` is unset or
empty), the endpoint returns `{status: "ok", nova: false, skipped:
"nova_unavailable"}` and the real backend invocation is never attempted. -/
theorem unavailableSkipsAndNeverInvokes (env : Env)
    (act : String → Option String → Except String Unit)
    (h : env.sdkPresent = false ∨ env.apiKey = none ∨ env.apiKey = some "") :
    novaAvailable env = false ∧
    (∀ p : BreakRitualRequest,
      triggerBreakRitual env act p =
        ⟨Except.ok ⟨"ok", false, some "nova_unavailable"⟩, [], []⟩) ∧
    (∀ p : ReentryRequest, p.url ≠ "" →
      triggerReentry env act p =
        ⟨Except.ok ⟨"ok", false, some "nova_unavailable"⟩, [], []⟩) := by
  have hav : novaAvailable env = false := by
    unfold novaAvailable
    rcases h with h | h | h <;> simp [h]
  refine ⟨hav, ?_, ?_⟩
  · intro p
    simp [triggerBreakRitual, hav]
  · intro p hp
    simp [triggerReentry, hav, hp]

/-- Witness for C1: with the SDK present but the API key empty, both
endpoints answer the skipped envelope with no recorded invocation. -/
theorem unavailableSkipsAndNeverInvokes_witness :
    triggerBreakRitual ⟨true, some ""⟩ (fun _ _ => Except.ok ())
        ⟨90, "breathing", true⟩ =
      ⟨Except.ok ⟨"ok", false, some "nova_unavailable"⟩, [], []⟩ ∧
    triggerReentry ⟨true, some ""⟩ (fun _ _ => Except.ok ())
        ⟨"https://docs.google.com/doc", "", "textarea"⟩ =
      ⟨Except.ok ⟨"ok", false, some "nova_unavailable"⟩, [], []⟩ := by
  have h := unavailableSkipsAndNeverInvokes ⟨true, some ""⟩ (fun _ _ => Except.ok ())
    (Or.inr (Or.inr rfl))
  exact ⟨h.2.1 ⟨90, "breathing", true⟩,
    h.2.2 ⟨"https://docs.google.com/doc", "", "textarea"⟩ (by decide)⟩

/-- C2: for every valid request, when the capability is available and the
backend call succeeds, both endpoints return `{status: "ok", nova: true}`
and the backend receives exactly the composed prompt together with the
expected starting page (the fixed `https://docs.google.com/` default for a
break ritual, the request's own `url` for re-entry). -/
theorem availableInvokesWithPromptAndPage (env : Env)
    (act : String → Option String → Except String Unit)
    (h : novaAvailable env = true) :
    (∀ p : BreakRitualRequest,
      act (describeBreakPrompt p) (some "https://docs.google.com/") = Except.ok () →
      triggerBreakRitual env act p =
        ⟨Except.ok ⟨"ok", true, none⟩,
         [⟨describeBreakPrompt p, some "https://docs.google.com/"⟩], []⟩) ∧
    (∀ p : ReentryRequest, p.url ≠ "" →
      act (describeReentryPrompt p) (some p.url) = Except.ok () →
      triggerReentry env act p =
        ⟨Except.ok ⟨"ok", true, none⟩, [⟨describeReentryPrompt p, some p.url⟩], []⟩) := by
  constructor
  · intro p hact
    have hn : normalizePage (some "https://docs.google.com/") =
        some "https://docs.google.com/" := normalizePage_of_ne _ (by decide)
    have hi := invokeNova_ok env act (describeBreakPrompt p)
      (some "https://docs.google.com/") h (by rw [hn]; exact hact)
    rw [hn] at hi
    simp [triggerBreakRitual, h, hi]
  · intro p hp hact
    have hn : normalizePage (some p.url) = some p.url := normalizePage_of_ne _ hp
    have hi := invokeNova_ok env act (describeReentryPrompt p) (some p.url) h
      (by rw [hn]; exact hact)
    rw [hn] at hi
    simp [triggerReentry, h, hi, hp]

/-- Witness for C2 with a concrete available environment and a recording
backend that always succeeds. -/
theorem availableInvokesWithPromptAndPage_witness :
    triggerBreakRitual ⟨true, some "key"⟩ (fun _ _ => Except.ok ())
        ⟨90, "breathing", true⟩ =
      ⟨Except.ok ⟨"ok", true, none⟩,
       [⟨describeBreakPrompt ⟨90, "breathing", true⟩, some "https://docs.google.com/"⟩],
       []⟩ ∧
    triggerReentry ⟨true, some "key"⟩ (fun _ _ => Except.ok ())
        ⟨"https://docs.google.com/doc", "resume", "textarea"⟩ =
      ⟨Except.ok ⟨"ok", true, none⟩,
       [⟨describeReentryPrompt ⟨"https://docs.google.com/doc", "resume", "textarea"⟩,
         some "https://docs.google.com/doc"⟩], []⟩ := by
  have h := availableInvokesWithPromptAndPage ⟨true, some "key"⟩
    (fun _ _ => Except.ok ()) (by decide)
  exact ⟨h.1 ⟨90, "breathing", true⟩ rfl,
    h.2 ⟨"https://docs.google.com/doc", "resume", "textarea"⟩ (by decide) rfl⟩

/-- C3: every integer `seconds` in `[30, 900]` is accepted by
`BreakRitualRequest` construction with its value kept unchanged (not
clamped), and every integer outside that range is rejected with a
validation failure. -/
theorem secondsRangeValidation :
    ∀ (s : Int) (k : String) (m : Bool), k.length ≤ 64 →
      ((30 ≤ s ∧ s ≤ 900) →
        BreakRitualRequest.validate s k m = some ⟨s, k, m⟩) ∧
      (¬(30 ≤ s ∧ s ≤ 900) → BreakRitualRequest.validate s k m = none) := by
  intro s k m hk
  constructor
  · intro hs
    unfold BreakRitualRequest.validate
    rw [if_pos ⟨hs.1, hs.2, hk⟩]
  · intro hs
    unfold BreakRitualRequest.validate
    rw [if_neg (fun hc => hs ⟨hc.1, hc.2.1⟩)]

/-- Witness for C3: 90 is accepted unchanged, 29 and 901 are rejected. -/
theorem secondsRangeValidation_witness :
    BreakRitualRequest.validate 90 "breathing" true = some ⟨90, "breathing", true⟩ ∧
    BreakRitualRequest.validate 29 "breathing" true = none ∧
    BreakRitualRequest.validate 901 "breathing" true = none :=
  ⟨(secondsRangeValidation 90 "breathing" true (by decide)).1 (by decide),
   (secondsRangeValidation 29 "breathing" true (by decide)).2 (by decide),
   (secondsRangeValidation 901 "breathing" true (by decide)).2 (by decide)⟩

/-- C4: for every validated break request the duration embedded in the
breathing-page URL line of the prompt is `max(30, min(seconds, 300))`, a
value clamped into `[30, 300]` and equal to `seconds` whenever
`seconds ≤ 300`. -/
theorem embeddedDurationClamped :
    ∀ p : BreakRitualRequest, 30 ≤ p.seconds → p.seconds ≤ 900 →
      (describeBreakLines p)[1]? =
        some ("1. Open a new tab and navigate to https://box-breathing.com/?duration=" ++
          toString (max 30 (min p.seconds 300)) ++ ".") ∧
      breakEmbeddedDuration p.seconds = max 30 (min p.seconds 300) ∧
      30 ≤ breakEmbeddedDuration p.seconds ∧ breakEmbeddedDuration p.seconds ≤ 300 ∧
      (p.seconds ≤ 300 → breakEmbeddedDuration p.seconds = p.seconds) := by
  intro p h30 h900
  refine ⟨rfl, rfl, ?_, ?_, ?_⟩
  · exact le_max_left 30 _
  · exact max_le (by norm_num) (min_le_right _ _)
  · intro h
    unfold breakEmbeddedDuration
    rw [min_eq_left h]
    exact max_eq_right h30

/-- Witness for C4 at 90 (kept as-is) and 450 (clamped to 300 in the URL
line). -/
theorem embeddedDurationClamped_witness :
    breakEmbeddedDuration 90 = 90 ∧
    (describeBreakLines ⟨450, "breathing", true⟩)[1]? =
      some ("1. Open a new tab and navigate to https://box-breathing.com/?duration=" ++
        toString (max 30 (min (450 : Int) 300)) ++ ".") :=
  ⟨(embeddedDurationClamped ⟨90, "breathing", true⟩ (by decide) (by decide)).2.2.2.2
      (by decide),
   (embeddedDurationClamped ⟨450, "breathing", true⟩ (by decide) (by decide)).1⟩

/-- C6: the duration label follows the claimed rendering rule for every
integer, and in particular 90 renders as "1m 30s", 60 as "1 minute",
120 as "2 minutes" and 45 as "45 seconds". -/
theorem durationLabelRendering :
    (∀ s : Int, formatSeconds s = formatSecondsClaim s) ∧
    formatSeconds 90 = "1m 30s" ∧ formatSeconds 60 = "1 minute" ∧
    formatSeconds 120 = "2 minutes" ∧ formatSeconds 45 = "45 seconds" :=
  ⟨formatSeconds_eq_claim, by decide, by decide, by decide, by decide⟩

/-- C7: with all other fields equal, the break prompt rendered with
`mute_slack = true` is exactly the `mute_slack = false` prompt plus one
additional Slack-pausing instruction line. -/
theorem muteSlackAddsOneLine :
    ∀ (s : Int) (k : String),
      describeBreakLines ⟨s, k, true⟩ = describeBreakLines ⟨s, k, false⟩ ++ [slackLine] ∧
      describeBreakPrompt ⟨s, k, true⟩ =
        describeBreakPrompt ⟨s, k, false⟩ ++ "\n" ++ slackLine ∧
      (describeBreakLines ⟨s, k, true⟩).length =
        (describeBreakLines ⟨s, k, false⟩).length + 1 := by
  intro s k
  have hlines : describeBreakLines ⟨s, k, true⟩ =
      describeBreakLines ⟨s, k, false⟩ ++ [slackLine] := by
    simp [describeBreakLines]
    exact ⟨rfl, rfl⟩
  refine ⟨hlines, ?_, ?_⟩
  · unfold describeBreakPrompt
    rw [hlines, joinLines_concat _ _ (by simp [describeBreakLines])]
  · rw [hlines]
    simp

/-- C8: note sanitization trims surrounding whitespace and collapses each
newline to a single space, maps an all-whitespace note to the empty string,
is idempotent, and the re-entry prompt contains the insert-note line
exactly when the sanitized note is non-empty. -/
theorem noteSanitizationProperties :
    ∀ p : ReentryRequest,
      stripNote p.note = stripNoteSpec p.note ∧
      (p.note.data.all pyWS = true → stripNote p.note = "") ∧
      stripNote (stripNote p.note) = stripNote p.note ∧
      (reentryStep5 p ∈ describeReentryLines p ↔ stripNote p.note ≠ "") :=
  fun p => ⟨stripNote_eq_spec p.note, stripNote_allWS p.note, stripNote_idem p.note,
    step5_mem_iff p⟩

/-- Witness for C8: an all-whitespace note sanitizes to empty, and a
non-empty note puts the insert-note line in the prompt. -/
theorem noteSanitizationProperties_witness :
    stripNote "  \n " = "" ∧
    reentryStep5 ⟨"https://a", " b\nc ", "t"⟩ ∈
      describeReentryLines ⟨"https://a", " b\nc ", "t"⟩ :=
  ⟨(noteSanitizationProperties ⟨"https://a", "  \n ", "t"⟩).2.1 (by decide),
   ((noteSanitizationProperties ⟨"https://a", " b\nc ", "t"⟩).2.2.2).mpr (by decide)⟩

/-- C9: when the capability is available and the backend raises, the error
message is logged with a warning, the error is re-raised out of the
dispatch, and the endpoint fails server-side after exactly one recorded
attempt, with no retry and no fallback to the skipped envelope. -/
theorem backendErrorLoggedAndReraised (env : Env)
    (act : String → Option String → Except String Unit)
    (h : novaAvailable env = true) :
    (∀ (prompt : String) (sp : Option String) (e : String),
      act prompt (normalizePage sp) = Except.error e →
      invokeNova env act prompt sp =
        ⟨[⟨prompt, normalizePage sp⟩], ["Nova ACT invocation failed: " ++ e],
         Except.error e⟩) ∧
    (∀ (p : BreakRitualRequest) (e : String),
      act (describeBreakPrompt p) (some "https://docs.google.com/") = Except.error e →
      triggerBreakRitual env act p =
        ⟨Except.error (Failure.backend e),
         [⟨describeBreakPrompt p, some "https://docs.google.com/"⟩],
         ["Nova ACT invocation failed: " ++ e]⟩) ∧
    (∀ (p : ReentryRequest) (e : String), p.url ≠ "" →
      act (describeReentryPrompt p) (some p.url) = Except.error e →
      triggerReentry env act p =
        ⟨Except.error (Failure.backend e), [⟨describeReentryPrompt p, some p.url⟩],
         ["Nova ACT invocation failed: " ++ e]⟩) := by
  refine ⟨fun prompt sp e hact => invokeNova_err env act prompt sp e h hact, ?_, ?_⟩
  · intro p e hact
    have hn := normalizePage_of_ne "https://docs.google.com/" (by decide)
    have hi := invokeNova_err env act (describeBreakPrompt p)
      (some "https://docs.google.com/") e h (by rw [hn]; exact hact)
    rw [hn] at hi
    simp [triggerBreakRitual, h, hi]
  · intro p e hp hact
    have hn := normalizePage_of_ne p.url hp
    have hi := invokeNova_err env act (describeReentryPrompt p) (some p.url) e h
      (by rw [hn]; exact hact)
    rw [hn] at hi
    simp [triggerReentry, h, hi, hp]

/-- Witness for C9: with an available environment and a backend that always
raises "boom", the break endpoint fails server-side with the warning
logged and one recorded attempt. -/
theorem backendErrorLoggedAndReraised_witness :
    triggerBreakRitual ⟨true, some "key"⟩ (fun _ _ => Except.error "boom")
        ⟨90, "breathing", true⟩ =
      ⟨Except.error (Failure.backend "boom"),
       [⟨describeBreakPrompt ⟨90, "breathing", true⟩, some "https://docs.google.com/"⟩],
       ["Nova ACT invocation failed: " ++ "boom"]⟩ :=
  (backendErrorLoggedAndReraised ⟨true, some "key"⟩ (fun _ _ => Except.error "boom")
    (by decide)).2.1 ⟨90, "breathing", true⟩ "boom" rfl

/-- C10: the final line of every re-entry prompt is the step numbered 6
(`"6. Reply in chat with: \"Ready to resume.\""`), and when the sanitized
note is empty the prompt is exactly the header plus steps 1–4 followed
directly by step 6, with no line numbered 5. -/
theorem reentryFinalStepNumbering :
    ∀ p : ReentryRequest,
      (describeReentryLines p).getLast? = some reentryStep6 ∧
      reentryStep6 = "6. Reply in chat with: \"Ready to resume.\"" ∧
      (stripNote p.note = "" →
        describeReentryLines p =
          [reentryHeader, reentryStep1 p, reentryStep2, reentryStep3 p, reentryStep4,
           reentryStep6] ∧
        ∀ l ∈ describeReentryLines p, headChar l ≠ some '5') := by
  intro p
  refine ⟨reentry_getLast p, rfl, ?_⟩
  intro h
  refine ⟨describeReentryLines_of_empty p h, ?_⟩
  intro l hl
  rw [describeReentryLines_of_empty p h] at hl
  exact step5_notMem_base p l hl

/-- Witness for C10 at a concrete request with an empty note. -/
theorem reentryFinalStepNumbering_witness :
    describeReentryLines ⟨"https://docs.google.com/doc", "", "textarea"⟩ =
      [reentryHeader, reentryStep1 ⟨"https://docs.google.com/doc", "", "textarea"⟩,
       reentryStep2, reentryStep3 ⟨"https://docs.google.com/doc", "", "textarea"⟩,
       reentryStep4, reentryStep6] :=
  ((reentryFinalStepNumbering ⟨"https://docs.google.com/doc", "", "textarea"⟩).2.2
    (by decide)).1

/-- C5 counterexample: the whitespace-only url `" "` passes pydantic
validation (`min_length=1`), passes the handler's `if not payload.url`
check (only the empty string is falsy in Python), and is dispatched to the
backend with `nova: true` — contradicting the claim that a whitespace-only
url yields a 400-class error with no backend contact. -/
theorem whitespaceUrlIsDispatched :
    " ".data.all pyWS = true ∧
    ReentryRequest.validate " " "" "textarea, [contenteditable=true]" =
      some ⟨" ", "", "textarea, [contenteditable=true]"⟩ ∧
    (triggerReentry ⟨true, some "key"⟩ (fun _ _ => Except.ok ())
        ⟨" ", "", "textarea, [contenteditable=true]"⟩).response =
      Except.ok ⟨"ok", true, none⟩ ∧
    (triggerReentry ⟨true, some "key"⟩ (fun _ _ => Except.ok ())
        ⟨" ", "", "textarea, [contenteditable=true]"⟩).invocations =
      [⟨describeReentryPrompt ⟨" ", "", "textarea, [contenteditable=true]"⟩, some " "⟩] :=
  ⟨by decide, by decide, rfl, rfl⟩

/-- C5 amended: only an empty `url` is rejected — construction fails
validation (`min_length=1`), and the handler's defense-in-depth check
returns a 400 "Missing url." without contacting the backend; a
whitespace-only url is not rejected. -/
theorem emptyUrlRejectedWithoutDispatch :
    ∀ (note sel : String) (env : Env)
      (act : String → Option String → Except String Unit) (p : ReentryRequest),
      ReentryRequest.validate "" note sel = none ∧
      (p.url = "" →
        triggerReentry env act p =
          ⟨Except.error (Failure.http 400 "Missing url."), [], []⟩) := by
  intro note sel env act p
  constructor
  · unfold ReentryRequest.validate
    rw [if_neg (by decide)]
  · intro hp
    simp [triggerReentry, hp]

/-- Witness for the amended C5 at a concrete empty-url request. -/
theorem emptyUrlRejectedWithoutDispatch_witness :
    triggerReentry ⟨true, some "key"⟩ (fun _ _ => Except.ok ()) ⟨"", "", ""⟩ =
      ⟨Except.error (Failure.http 400 "Missing url."), [], []⟩ :=
  (emptyUrlRejectedWithoutDispatch "" "" ⟨true, some "key"⟩ (fun _ _ => Except.ok ())
    ⟨"", "", ""⟩).2 rfl

end NovaBridge
